import Mathlib

/-!
Shallow embedding of the badgrclient library (badgrclient.py, badgrmodels.py,
util.py): the OAuth session lifecycle, the API gateway, response
deserialization, entity operations, the badge-name index, and the image
encoder.  Python values appearing in JSON payloads and attributes are
modelled by the `PyObj` type with Python truthiness; Python exceptions by
the `Err` type; the HTTP transport by explicit `HttpReply` parameters and a
trace of issued `Request`s.  Machine state (`self`) is passed explicitly.
-/

/-- A Python value as it appears in JSON payloads and object attributes:
None, bool, int, str, list, dict (string keys, insertion order kept). -/
inductive PyObj where
  | none
  | bool (b : Bool)
  | int (n : Int)
  | str (s : String)
  | list (l : List PyObj)
  | dict (l : List (String × PyObj))

/-- Python exceptions raised by the library or the interpreter.  The
library's own classes `APIError` and `BadgrClientError` live in its
`exceptions` module; `exception` is a bare `raise Exception(msg)`. -/
inductive Err where
  | apiError (msg : String)
  | badgrClientError (msg : String)
  | exception (msg : String)
  | keyError (key : String)
  | typeError (msg : String)
  | attributeError (msg : String)
  | indexError (msg : String)
deriving DecidableEq, Repr

/-- Python `==` on our value fragment (structural equality). -/
def PyObj.beq : PyObj → PyObj → Bool
  | .none, .none => true
  | .bool a, .bool b => a == b
  | .int a, .int b => a == b
  | .str a, .str b => a == b
  | .list [], .list [] => true
  | .list (x :: xs), .list (y :: ys) => PyObj.beq x y && PyObj.beq (.list xs) (.list ys)
  | .dict [], .dict [] => true
  | .dict ((k1, v1) :: xs), .dict ((k2, v2) :: ys) =>
      k1 == k2 && PyObj.beq v1 v2 && PyObj.beq (.dict xs) (.dict ys)
  | _, _ => false

/-- Python truthiness: None, False, 0, empty string/list/dict are falsy. -/
def PyObj.truthy : PyObj → Bool
  | .none => false
  | .bool b => b
  | .int n => n != 0
  | .str s => !(s == "")
  | .list l => !l.isEmpty
  | .dict l => !l.isEmpty

/-- Python `str(x)` for the scalar cases used by the library; container
formatting is elided (only reaches log and error-message text). -/
def pyStr : PyObj → String
  | .none => "None"
  | .bool true => "True"
  | .bool false => "False"
  | .int n => toString n
  | .str s => s
  | .list _ => "<list>"
  | .dict _ => "<dict>"

/-- Python `obj[key]` with a string key: dict lookup (KeyError on miss),
TypeError on non-dict receivers. -/
def pyIndex (o : PyObj) (k : String) : Except Err PyObj :=
  match o with
  | .dict l =>
    match l.find? (fun p => p.1 == k) with
    | some p => .ok p.2
    | Option.none => .error (.keyError k)
  | .list _ => .error (.typeError "list indices must be integers or slices, not str")
  | .str _ => .error (.typeError "string indices must be integers")
  | .none => .error (.typeError "NoneType object is not subscriptable")
  | .bool _ => .error (.typeError "bool object is not subscriptable")
  | .int _ => .error (.typeError "int object is not subscriptable")

/-- Python `obj[0]`: first element of a list (IndexError when empty),
first character of a str, errors on other receivers. -/
def pyIndex0 (o : PyObj) : Except Err PyObj :=
  match o with
  | .list (x :: _) => .ok x
  | .list [] => .error (.indexError "list index out of range")
  | .str s => if s == "" then .error (.indexError "string index out of range")
              else .ok (.str (s.take 1))
  | .dict l =>
    match l.find? (fun p => p.1 == "0") with
    | some p => .ok p.2
    | Option.none => .error (.keyError "0")
  | .none => .error (.typeError "NoneType object is not subscriptable")
  | .bool _ => .error (.typeError "bool object is not subscriptable")
  | .int _ => .error (.typeError "int object is not subscriptable")

/-- Python `key in obj`: dict key test, list membership, substring test on
str; TypeError on non-iterables. -/
def pyContains (o : PyObj) (k : String) : Except Err Bool :=
  match o with
  | .dict l => .ok (l.any (fun p => p.1 == k))
  | .list l => .ok (l.any (fun x => PyObj.beq x (.str k)))
  | .str s => .ok ((s.splitOn k).length > 1)
  | .none => .error (.typeError "argument of type NoneType is not iterable")
  | .bool _ => .error (.typeError "argument of type bool is not iterable")
  | .int _ => .error (.typeError "argument of type int is not iterable")

/-- Python `obj.get(key, None)` — only dicts have `.get`; AttributeError
otherwise. -/
def pyGet (o : PyObj) (k : String) : Except Err PyObj :=
  match o with
  | .dict l =>
    match l.find? (fun p => p.1 == k) with
    | some p => .ok p.2
    | Option.none => .ok .none
  | _ => .error (.attributeError "object has no attribute get")

/-- A numeric Python value (for `timedelta(seconds=x)`); bools count as
ints in Python, everything else raises. -/
def pyAsInt (o : PyObj) : Except Err Int :=
  match o with
  | .int n => .ok n
  | .bool b => .ok (if b then 1 else 0)
  | _ => .error (.typeError "unsupported type for timedelta seconds component")

/-- Python `s + x` where `s` is a str: TypeError unless `x` is a str. -/
def pyAddStr (s : String) (o : PyObj) : Except Err String :=
  match o with
  | .str t => .ok (s ++ t)
  | _ => .error (.typeError "can only concatenate str to str")

/-- Lookup in a Python dict keyed by arbitrary values (the badge-name
index), modelled as an association list with `==` on keys. -/
def alGet {α : Type} : List (PyObj × α) → PyObj → Option α
  | [], _ => Option.none
  | (k1, v1) :: rest, k => if PyObj.beq k1 k then some v1 else alGet rest k

/-- Assignment `d[k] = v` in a Python dict: replace the first matching key
(keeping the original key object), else append. -/
def alSet {α : Type} : List (PyObj × α) → PyObj → α → List (PyObj × α)
  | [], k, v => [(k, v)]
  | (k1, v1) :: rest, k, v =>
      if PyObj.beq k1 k then (k1, v) :: rest else (k1, v1) :: alSet rest k v

/-- Whether an `Except` is a success. -/
def exOk {ε α : Type} : Except ε α → Bool
  | .ok _ => true
  | .error _ => false

/-- The mutable attributes of a `BadgrClient` instance relevant to the
session lifecycle and the badge-name index (badgrclient.py, `__init__`).
`header` is the `self.header` dict; `badge_names` the per-issuer name
index (dict keys can be any Python value, e.g. None, hence `PyObj`). -/
structure ClientState where
  header : List (String × String)
  refresh_token : PyObj
  token_expires_at : Option Int
  scope : PyObj
  client_id : String
  base_url : String
  unique_badge_names : Bool
  badge_names : List (PyObj × List (PyObj × PyObj))

/-- Which transport primitive issued a request: `requests.post` inside
`_get_auth_token` (a token exchange) or `self.session.request` inside
`_call_api`. -/
inductive ReqKind where
  | tokenPost
  | sessionRequest
deriving DecidableEq, Repr

/-- One outgoing HTTP request, as recorded for the trace. -/
structure Request where
  kind : ReqKind
  url : String
  method : String
  headers : List (String × String)
  params : PyObj
  body : PyObj

/-- A server reply: the decoded JSON body (`Option.none` when the body
does not parse as JSON) and the HTTP status code. -/
structure HttpReply where
  body : Option PyObj
  status_code : Nat

/-- Ambient inputs of a call: the current time, the reply the token
endpoint would give, and the module-level `getenv` defaults used as
`_get_auth_token`'s default arguments. -/
structure World where
  now : Int
  tokenReply : HttpReply
  envUsername : PyObj
  envPassword : PyObj

/-- `BadgrClient._get_json`: decode the body (APIError when not JSON),
raise APIError on an `error` field with status >= 300, raise APIError on a
falsy `status.success` with a `description`; otherwise return the body. -/
def getJson (r : HttpReply) : Except Err PyObj := do
  match r.body with
  | Option.none => .error (.apiError "Error while decoding JSON")
  | some response => do
    if r.status_code ≥ 300 then
      let he ← pyContains response "error"
      if he then
        let ev ← pyIndex response "error"
        throw (.apiError (pyStr ev))
    let hs ← pyContains response "status"
    if hs then
      let status ← pyIndex response "status"
      let success ← pyIndex status "success"
      if !success.truthy then
        let hd ← pyContains status "description"
        if hd then
          let dv ← pyIndex status "description"
          throw (.apiError (pyStr dv))
    return response

/-- The form payload of `_get_auth_token` together with the client state
after the payload is built: the refresh-token grant clears
`self.refresh_token` to None before the request is sent
(badgrclient.py lines 174-188). -/
def buildTokenPayload (st : ClientState) (username password : PyObj) :
    List (String × PyObj) × ClientState :=
  let p0 := [("client_id", PyObj.str st.client_id)]
  let p1 := if st.scope.truthy then p0 ++ [("scope", st.scope)] else p0
  if username.truthy && password.truthy then
    (p1 ++ [("username", username), ("password", password),
            ("grant_type", PyObj.str "password")], st)
  else if st.refresh_token.truthy then
    (p1 ++ [("refresh_token", st.refresh_token),
            ("grant_type", PyObj.str "refresh_token")],
     { st with refresh_token := .none })
  else
    (p1, st)

/-- Processing of the token endpoint's reply (badgrclient.py lines
192-198): validate the envelope, then read `expires_in`,
`refresh_token` and `access_token` in source order, mutating the state
field by field; a failure at any step keeps the mutations already made. -/
def applyTokenResponse (st1 : ClientState) (now : Int) (reply : HttpReply) :
    Except Err Unit × ClientState :=
  match getJson reply with
  | .error e => (.error e, st1)
  | .ok response =>
    match pyIndex response "expires_in" with
    | .error e => (.error e, st1)
    | .ok ei =>
      match pyAsInt ei with
      | .error e => (.error e, st1)
      | .ok secs =>
        let st2 := { st1 with token_expires_at := some (now + secs) }
        match pyIndex response "refresh_token" with
        | .error e => (.error e, st2)
        | .ok rt =>
          let st3 := { st2 with refresh_token := rt }
          match pyIndex response "access_token" with
          | .error e => (.error e, st3)
          | .ok tok =>
            match pyAddStr "Bearer " tok with
            | .error e => (.error e, st3)
            | .ok s => (.ok (), { st3 with header := [("Authorization", s)] })

/-- `BadgrClient._get_auth_token(username, password)`: build the grant
payload, POST it to `{base_url}/o/token`, and apply the response.
Returns the outcome, the resulting client state, and the request trace. -/
def getAuthToken (st : ClientState) (now : Int) (tokenReply : HttpReply)
    (username password : PyObj) :
    Except Err Unit × ClientState × List Request :=
  let pp := buildTokenPayload st username password
  let req : Request := { kind := .tokenPost, url := st.base_url ++ "/o/token",
                         method := "POST", headers := [], params := .none,
                         body := .dict pp.1 }
  let r := applyTokenResponse pp.2 now tokenReply
  (r.1, r.2, [req])

/-- The expiry test of `_call_api` (badgrclient.py lines 114-116): the
stored expiry is truthy (a datetime is always truthy, None is falsy) and
strictly earlier than the current time. -/
def needsRefresh (st : ClientState) (now : Int) : Bool :=
  match st.token_expires_at with
  | some t => decide (t < now)
  | Option.none => false

/-- Whether a header dict contains the `Authorization` key. -/
def hasAuthKey (l : List (String × String)) : Bool :=
  l.any (fun q => q.1 == "Authorization")

/-- `header.pop("Authorization")` on the stored header dict. -/
def eraseAuth (l : List (String × String)) : List (String × String) :=
  l.filter (fun q => q.1 != "Authorization")

/-- `BadgrClient._call_api(endpoint, method, params, data, auth)`:
refresh the token first when `auth` is set and the stored expiry has
passed (propagating a refresh failure without sending the main request);
strip the Authorization key from the stored header dict in place when
`auth` is false; send the request with the stored header; decode the
reply with `_get_json`. -/
def callApi (st : ClientState) (w : World) (reply : HttpReply)
    (endpoint method : String) (params data : PyObj) (auth : Bool) :
    Except Err PyObj × ClientState × List Request :=
  let pre : Except Err Unit × ClientState × List Request :=
    if auth && needsRefresh st w.now then
      getAuthToken st w.now w.tokenReply w.envUsername w.envPassword
    else (.ok (), st, [])
  match pre with
  | (.error e, st1, tr) => (.error e, st1, tr)
  | (.ok _, st1, tr) =>
    let url := st1.base_url ++ endpoint
    let st2 := if !auth && hasAuthKey st1.header
               then { st1 with header := eraseAuth st1.header } else st1
    let req : Request := { kind := .sessionRequest, url := url, method := method,
                           headers := st2.header, params := params, body := data }
    match getJson reply with
    | .error e => (.error e, st2, tr ++ [req])
    | .ok response => (.ok response, st2, tr ++ [req])

/-- The three model classes of the `MODELS` mapping in badgrclient.py. -/
inductive ModelKind where
  | assertion
  | badgeClass
  | issuer
deriving DecidableEq, Repr

/-- The `ENDPOINT` class attribute of each model (badgrmodels.py). -/
def endpointOf : ModelKind → String
  | .assertion => "/v2/assertions"
  | .badgeClass => "/v2/badgeclasses"
  | .issuer => "/v2/issuers"

/-- The fixed type-tag to constructor mapping `MODELS` (badgrclient.py
lines 20-24). -/
def MODELS : List (String × ModelKind) :=
  [("Assertion", .assertion), ("BadgeClass", .badgeClass), ("Issuer", .issuer)]

/-- Python `MODELS[entityType]`: dict lookup with an arbitrary key object;
a string key misses with KeyError, unhashable keys raise TypeError,
hashable non-string keys miss with KeyError. -/
def modelsIndex (o : PyObj) : Except Err ModelKind :=
  match o with
  | .str s =>
    match MODELS.find? (fun p => p.1 == s) with
    | some p => .ok p.2
    | Option.none => .error (.keyError s)
  | .list _ => .error (.typeError "unhashable type list")
  | .dict _ => .error (.typeError "unhashable type dict")
  | other => .error (.keyError (pyStr other))

/-- A Python class object is always truthy — the `if MODELS[entityType]:`
test in `_deserialize` (badgrclient.py line 213). -/
def classTruthy (_ : ModelKind) : Bool := true

/-- The attributes of a `Base` model instance (badgrmodels.py `Base`):
the `ENDPOINT` of its class, `self.entityId` and `self.data` (the owning
client reference is passed separately as explicit state). -/
structure Entity where
  endpoint : String
  entityId : PyObj
  data : PyObj

/-- A fresh model instance `MODELS[entityType](self)`. -/
def mkModel (k : ModelKind) : Entity :=
  { endpoint := endpointOf k, entityId := .none, data := .none }

namespace Base

/-- `Base.set_data(data)`: store the data and adopt `data['entityId']`
when that key is present. -/
def set_data (e : Entity) (d : PyObj) : Except Err Entity := do
  let e1 : Entity := { e with data := d }
  let c ← pyContains d "entityId"
  if c then
    let eid ← pyIndex d "entityId"
    return { e1 with entityId := eid }
  else
    return e1

/-- `Base.get_entity_ep`: `ENDPOINT + '/{}'.format(self.entityId)`. -/
def get_entity_ep (e : Entity) : String := e.endpoint ++ "/" ++ pyStr e.entityId

end Base

/-- `BadgrClient._deserialize(result)`: map each item through the
`MODELS` lookup on its `entityType` tag, instantiating and populating a
model per item; the (dead, since classes are truthy) else-branch would
append the raw item. -/
inductive DeserItem where
  | entity (e : Entity)
  | raw (o : PyObj)

def deserialize : List PyObj → Except Err (List DeserItem)
  | [] => .ok []
  | i :: rest => do
    let et ← pyIndex i "entityType"
    let k ← modelsIndex et
    let hd ← if classTruthy k then do
        let e ← Base.set_data (mkModel k) i
        pure (DeserItem.entity e)
      else
        pure (DeserItem.raw i)
    let tl ← deserialize rest
    return hd :: tl

namespace Base

/-- The guard of the `eid_required` decorator (util.py): a falsy
`self.entityId` raises before the wrapped operation runs. -/
def eidMissing : Err := .exception "entityId is required for this operation"

/-- Body of `Base.fetch` (badgrmodels.py lines 62-71): GET the entity's
endpoint, take `response['result'][0]`, and repopulate via `set_data`. -/
def fetchBody (e : Entity) (st : ClientState) (w : World) (reply : HttpReply) :
    Except Err Entity × ClientState × List Request :=
  let ep := get_entity_ep e
  match callApi st w reply ep "GET" .none .none true with
  | (.error err, st1, tr) => (.error err, st1, tr)
  | (.ok response, st1, tr) =>
    match pyIndex response "result" with
    | .error err => (.error err, st1, tr)
    | .ok rl =>
      match pyIndex0 rl with
      | .error err => (.error err, st1, tr)
      | .ok r0 =>
        match set_data e r0 with
        | .error err => (.error err, st1, tr)
        | .ok e1 => (.ok e1, st1, tr)

/-- Calling the decorated `fetch` with a list of extra positional
arguments, as Python dispatches it: `eid_required`'s wrapper accepts and
forwards `*args`, checks `self.entityId` first, and the underlying
`fetch(self)` then rejects any extra positional argument with TypeError
(it is defined with no parameters besides `self`). -/
def fetch_args (e : Entity) (args : List String) (st : ClientState) (w : World)
    (reply : HttpReply) : Except Err Entity × ClientState × List Request :=
  if e.entityId.truthy then
    if args.isEmpty then fetchBody e st w reply
    else (.error (.typeError "fetch() takes 1 positional argument but more were given"),
          st, [])
  else (.error eidMissing, st, [])

/-- `Base.fetch()` as called with no arguments. -/
def fetch (e : Entity) (st : ClientState) (w : World) (reply : HttpReply) :
    Except Err Entity × ClientState × List Request :=
  fetch_args e [] st w reply

/-- `Base.delete()` (badgrmodels.py lines 39-48): `eid_required` guard,
then DELETE on the entity endpoint. -/
def delete (e : Entity) (st : ClientState) (w : World) (reply : HttpReply) :
    Except Err PyObj × ClientState × List Request :=
  if e.entityId.truthy then
    callApi st w reply (get_entity_ep e) "DELETE" .none .none true
  else (.error eidMissing, st, [])

/-- `Base.update()` (badgrmodels.py lines 50-60): `eid_required` guard,
PUT the entity's current `self.data` to its endpoint, then
`self.fetch(self.get_entity_ep())` — a call that hands `fetch` one
positional argument — and finally return the PUT response. -/
def update (e : Entity) (st : ClientState) (w : World)
    (putReply fetchReply : HttpReply) :
    Except Err PyObj × ClientState × List Request :=
  if e.entityId.truthy then
    let ep := get_entity_ep e
    match callApi st w putReply ep "PUT" .none e.data true with
    | (.error err, st1, tr) => (.error err, st1, tr)
    | (.ok response, st1, tr) =>
      match fetch_args e [get_entity_ep e] st1 w fetchReply with
      | (.error err, st2, tr2) => (.error err, st2, tr ++ tr2)
      | (.ok _, st2, tr2) => (.ok response, st2, tr ++ tr2)
  else (.error eidMissing, st, [])

end Base

/-- `BadgrClient.get_eid_from_badge_name(badge_name, issuer_eid)`
(badgrclient.py lines 275-298): None when both arguments are falsy or the
feature is off; otherwise return the indexed value when both the issuer's
inner dict and the stored value are truthy, else None. -/
def get_eid_from_badge_name (st : ClientState) (badge_name issuer_eid : PyObj) :
    PyObj :=
  if !(badge_name.truthy || issuer_eid.truthy) then .none
  else if !st.unique_badge_names then .none
  else
    match alGet st.badge_names issuer_eid with
    | some inner =>
      if !inner.isEmpty then
        match alGet inner badge_name with
        | some v => if v.truthy then v else .none
        | Option.none => .none
      else .none
    | Option.none => .none

/-- `BadgrClient._save_badge_name(badge)` (badgrclient.py lines 235-258):
read `entityId`, `data.get('name')`, `data.get('issuer')`; skip (with a
log message) only when all three are falsy; otherwise ensure the issuer's
inner dict exists (replacing a falsy one) and store name -> entityId. -/
def save_badge_name (st : ClientState) (badge : Entity) :
    Except Err ClientState := do
  let eid := badge.entityId
  let badge_name ← pyGet badge.data "name"
  let issuer_eid ← pyGet badge.data "issuer"
  if !(eid.truthy || badge_name.truthy || issuer_eid.truthy) then
    return st
  else
    let base := match alGet st.badge_names issuer_eid with
      | some l => if l.isEmpty then [] else l
      | Option.none => []
    let inner := alSet base badge_name eid
    return { st with badge_names := alSet st.badge_names issuer_eid inner }

/-- Error message of the missing-criteria check in `BadgeClass.create`
(line-continuation whitespace of the source literal elided). -/
def criteriaMsg : String :=
  "At least one of criteria_text and criteria_url is required"

/-- Error message of the duplicate-name check in `BadgeClass.create`
(source formats in the badge name and the existing entityId;
line-continuation whitespace elided). -/
def dupNameMsg (name existing : PyObj) : String :=
  "BadgeClas name " ++ pyStr name ++ " is not unique. " ++ pyStr existing ++
    " exists with the same name"

/-- `BadgeClass.create(name, image, description, issuer_eid,
criteria_text, criteria_url, alignments, tags, expires)` (badgrmodels.py
lines 184-261): require a truthy criterion, build the payload, with the
name-index feature reject a truthy existing index entry before calling
the API, POST, repopulate from `response['result'][0]`, and register the
new badge in the index. -/
def createPayload (name image description issuer_eid criteria_text criteria_url
    alignments tags expires : PyObj) : PyObj :=
  .dict
    [("name", name), ("image", image), ("issuer", issuer_eid),
     ("description", description), ("criteria_text", criteria_text),
     ("criteria_url", criteria_url),
     ("alignments", if alignments.truthy then alignments else .list []),
     ("tags", if tags.truthy then tags else .list []),
     ("expires", expires)]

def BadgeClass.create (e : Entity) (st : ClientState) (w : World)
    (reply : HttpReply)
    (name image description issuer_eid criteria_text criteria_url
     alignments tags expires : PyObj) :
    Except Err Entity × ClientState × List Request :=
  if !(criteria_text.truthy || criteria_url.truthy) then
    (.error (.exception criteriaMsg), st, [])
  else if st.unique_badge_names
      && (get_eid_from_badge_name st name issuer_eid).truthy then
    (.error (.badgrClientError
      (dupNameMsg name (get_eid_from_badge_name st name issuer_eid))), st, [])
  else
    match callApi st w reply "/v2/badgeclasses" "POST" .none
        (createPayload name image description issuer_eid criteria_text
          criteria_url alignments tags expires) true with
    | (.error err, st1, tr) => (.error err, st1, tr)
    | (.ok response, st1, tr) =>
      match pyIndex response "result" with
      | .error err => (.error err, st1, tr)
      | .ok rl =>
        match pyIndex0 rl with
        | .error err => (.error err, st1, tr)
        | .ok r0 =>
          match Base.set_data e r0 with
          | .error err => (.error err, st1, tr)
          | .ok e1 =>
            if st.unique_badge_names then
              match save_badge_name st1 e1 with
              | .error err => (.error err, st1, tr)
              | .ok st2 => (.ok e1, st2, tr)
            else (.ok e1, st1, tr)

/-- `BadgrClient.revoke_assertions(ids, reason)` (badgrclient.py lines
385-402): build one `{entityId, revocationReason}` item per id in input
order and POST the list to `/v2/assertions/revoke` in a single call. -/
def revoke_assertions (st : ClientState) (w : World) (reply : HttpReply)
    (ids : List String) (reason : String) :
    Except Err PyObj × ClientState × List Request :=
  let payload : PyObj := .list (ids.map (fun eid =>
    .dict [("entityId", .str eid), ("revocationReason", .str reason)]))
  callApi st w reply "/v2/assertions/revoke" "POST" .none payload true

/-- The `IMAGE_MIME_TYPES` mapping (badgrclient.py lines 26-29). -/
def IMAGE_MIME_TYPES : List (String × String) :=
  [("svg", "image/svg+xml"), ("png", "image/png")]

/-- The base64 alphabet. -/
def b64Chars : List Char :=
  "ABCDEFGHIJKLMNOPQRSTUVWXYZabcdefghijklmnopqrstuvwxyz0123456789+/".toList

def b64Char (n : Nat) : Char := b64Chars.getD n 'A'

/-- `base64.b64encode` over a byte list: standard base64 with padding. -/
def b64encode : List Nat → String
  | a :: b :: c :: rest =>
    String.mk [b64Char (a / 4), b64Char (a % 4 * 16 + b / 16),
               b64Char (b % 16 * 4 + c / 64), b64Char (c % 64)] ++ b64encode rest
  | [a, b] =>
    String.mk [b64Char (a / 4), b64Char (a % 4 * 16 + b / 16),
               b64Char (b % 16 * 4), '=']
  | [a] =>
    String.mk [b64Char (a / 4), b64Char (a % 4 * 16), '=', '=']
  | [] => ""

/-- The file extension as `encode_image` computes it:
`file_path.split('.')[-1]`, i.e. everything after the last dot (the full
path when it has no dot; split never yields an empty list). -/
def extAfterLastDot : List Char → String → String
  | [], acc => acc
  | c :: rest, acc =>
    if c = '.' then extAfterLastDot rest "" else extAfterLastDot rest (acc.push c)

def fileExtension (file_path : String) : String :=
  extAfterLastDot file_path.toList ""

/-- `BadgrClient.encode_image(file_path)` (badgrclient.py lines 300-328),
with the opened file's bytes passed explicitly: look the extension up in
`IMAGE_MIME_TYPES` (a miss raises KeyError; the subsequent falsy-check
raise of BadgrClientError is unreachable because the mapping has no falsy
values), then produce the data-URI string. -/
def encode_image (file_path : String) (contents : List Nat) :
    Except Err String := do
  let extension := fileExtension file_path
  let mime_type ←
    match IMAGE_MIME_TYPES.find? (fun p => p.1 == extension) with
    | some p => Except.ok p.2
    | Option.none => Except.error (Err.keyError extension)
  if mime_type == "" then
    .error (.badgrClientError ("Image format " ++ extension ++ " not supported"))
  else
    .ok ("data:" ++ mime_type ++ ";base64," ++ b64encode contents)

/-- The badge-name index maps the (issuer, name) pair to a truthy value
(a badge id). -/
def indexMapsTo (st : ClientState) (issuer name : PyObj) : Bool :=
  match alGet st.badge_names issuer with
  | some inner =>
    match alGet inner name with
    | some v => v.truthy
    | Option.none => false
  | Option.none => false

/-- An item whose `entityType` tag is a string absent from `MODELS`. -/
def badDiscriminator (i : PyObj) : Prop :=
  ∃ s, pyIndex i "entityType" = .ok (.str s) ∧
    MODELS.find? (fun p => p.1 == s) = Option.none

/-- A generic client state for concrete runs: directly supplied token, no
expiry tracking, name-index feature off. -/
def stBase : ClientState :=
  { header := [("Authorization", "Bearer tok")], refresh_token := .str "rt",
    token_expires_at := Option.none, scope := .str "rw", client_id := "cid",
    base_url := "http://b", unique_badge_names := false, badge_names := [] }

/-- A generic world for concrete runs. -/
def wBase : World :=
  { now := 0, tokenReply := { body := Option.none, status_code := 200 },
    envUsername := .none, envPassword := .none }

/-- A successful response envelope carrying the given result list. -/
def okEnvelope (result : List PyObj) : HttpReply :=
  { body := some (.dict [("result", .list result),
                         ("status", .dict [("success", .bool true)])]),
    status_code := 200 }

/-- A successful token-endpoint reply for concrete runs. -/
def tokReply : HttpReply :=
  { body := some (.dict [("access_token", .str "t2"), ("expires_in", .int 86400),
                         ("refresh_token", .str "r2")])
    status_code := 200 }

/-- An error reply from the token endpoint. -/
def badTokenReply : HttpReply :=
  { body := some (.dict [("error", .str "invalid_grant")]), status_code := 400 }

/-- A client with the name-index feature on whose index maps the pair of
empty strings to badge id "xyz". -/
def stDup : ClientState :=
  { stBase with
    unique_badge_names := true
    badge_names := [(.str "", [(.str "", .str "xyz")])] }

/-- A successful creation reply whose badge data echoes empty name and
issuer fields. -/
def dupReply : HttpReply :=
  okEnvelope [.dict [("entityId", .str "new1"), ("name", .str ""), ("issuer", .str "")]]

/-- A client with the name-index on whose index maps ("i", "n") to "xyz". -/
def stDup2 : ClientState :=
  { stBase with
    unique_badge_names := true
    badge_names := [(.str "i", [(.str "n", .str "xyz")])] }

/-- A client with the name-index on and an empty index. -/
def stIdx : ClientState := { stBase with unique_badge_names := true }

/-- A successful creation reply for a badge named "n" under issuer "i". -/
def newBadgeReply : HttpReply :=
  okEnvelope [.dict [("entityId", .str "new1"), ("name", .str "n"), ("issuer", .str "i")]]

theorem PyObj.beq_refl : ∀ o : PyObj, PyObj.beq o o = true
  | .none => by simp [PyObj.beq]
  | .bool b => by simp [PyObj.beq]
  | .int n => by simp [PyObj.beq]
  | .str s => by simp [PyObj.beq]
  | .list [] => by simp [PyObj.beq]
  | .list (x :: xs) => by
    have h1 := PyObj.beq_refl x
    have h2 := PyObj.beq_refl (.list xs)
    simp [PyObj.beq, h1, h2]
  | .dict [] => by simp [PyObj.beq]
  | .dict ((k, v) :: xs) => by
    have h1 := PyObj.beq_refl v
    have h2 := PyObj.beq_refl (.dict xs)
    simp [PyObj.beq, h1, h2]

theorem alGet_alSet_self {α : Type} (l : List (PyObj × α)) (k : PyObj) (v : α) :
    alGet (alSet l k v) k = some v := by
  induction l with
  | nil => simp [alSet, alGet, PyObj.beq_refl]
  | cons p rest ih =>
    obtain ⟨k1, v1⟩ := p
    by_cases h : PyObj.beq k1 k
    · simp [alSet, alGet, h]
    · simp only [alSet, alGet, h]
      simp [h, ih]

/-- C7: for every call to `BadgeClass.create` in which both
`criteria_text` and `criteria_url` are absent (None), the call fails with
the validation error and issues no network call: the request payload is
never sent and the state is untouched. -/
theorem badgeclass_create_requires_criteria
    (e : Entity) (st : ClientState) (w : World) (reply : HttpReply)
    (name image description issuer_eid alignments tags expires : PyObj) :
    BadgeClass.create e st w reply name image description issuer_eid
      .none .none alignments tags expires
    = (.error (.exception criteriaMsg), st, []) := rfl

/-- C8: for every entity whose `entityId` is None, each of `fetch()`,
`delete()` and `update()` fails with the `eid_required` precondition
error and performs no network call (empty request trace, state
untouched). -/
theorem unbound_entity_operations_fail
    (st : ClientState) (w : World) (r1 r2 r3 r4 : HttpReply) (e : Entity)
    (h : e.entityId = PyObj.none) :
    Base.fetch e st w r1 = (.error Base.eidMissing, st, [])
    ∧ Base.delete e st w r2 = (.error Base.eidMissing, st, [])
    ∧ Base.update e st w r3 r4 = (.error Base.eidMissing, st, []) := by
  refine ⟨?_, ?_, ?_⟩ <;>
    simp [Base.fetch, Base.fetch_args, Base.delete, Base.update, h, PyObj.truthy]

theorem unbound_entity_operations_fail_witness :
    Base.fetch (Entity.mk "/v2/issuers" .none .none) stBase wBase (okEnvelope [])
      = (.error Base.eidMissing, stBase, [])
    ∧ Base.delete (Entity.mk "/v2/issuers" .none .none) stBase wBase (okEnvelope [])
      = (.error Base.eidMissing, stBase, [])
    ∧ Base.update (Entity.mk "/v2/issuers" .none .none) stBase wBase (okEnvelope [])
        (okEnvelope [])
      = (.error Base.eidMissing, stBase, []) :=
  unbound_entity_operations_fail stBase wBase (okEnvelope []) (okEnvelope [])
    (okEnvelope []) (okEnvelope []) (Entity.mk "/v2/issuers" .none .none) rfl

/-- C2 (code bug): on a bound entity, `update()` does issue the PUT with
the entity's current raw data, but the subsequent
`self.fetch(self.get_entity_ep())` hands the no-argument `fetch` a
positional argument, so every `update()` call raises TypeError after the
PUT instead of re-fetching and repopulating the entity: here a concrete
bound entity against a server that answers the PUT successfully. -/
theorem update_put_succeeds_then_type_error :
    Base.update (Entity.mk "/v2/issuers" (.str "abc") (.dict [("name", .str "Fedora")]))
      stBase wBase (okEnvelope [.dict [("entityId", .str "abc")]])
      (okEnvelope [.dict [("entityId", .str "abc")]])
    = (.error (.typeError "fetch() takes 1 positional argument but more were given"),
       stBase,
       [{ kind := .sessionRequest, url := "http://b/v2/issuers/abc", method := "PUT",
          headers := [("Authorization", "Bearer tok")], params := .none,
          body := .dict [("name", .str "Fedora")] }]) := rfl

/-- C10: for every file path with extension `png`, `encode_image` returns
the string `data:image/png;base64,` followed by the base64 encoding of
the file's bytes; for every path whose extension is neither `png` nor
`svg`, `encode_image` fails (the `IMAGE_MIME_TYPES` lookup raises
KeyError on the extension — the guarded BadgrClientError raise below it
is unreachable). -/
theorem encode_image_png_and_unsupported (path : String) (bytes : List Nat) :
    (fileExtension path = "png" →
      encode_image path bytes = .ok ("data:image/png;base64," ++ b64encode bytes))
    ∧ (fileExtension path ≠ "png" → fileExtension path ≠ "svg" →
      encode_image path bytes = .error (.keyError (fileExtension path))) := by
  constructor
  · intro h
    simp [encode_image, h, IMAGE_MIME_TYPES, List.find?, Bind.bind, Except.bind]
  · intro h1 h2
    have e1 : ("svg" == fileExtension path) = false := by
      simp [Ne.symm h2]
    have e2 : ("png" == fileExtension path) = false := by
      simp [Ne.symm h1]
    simp [encode_image, IMAGE_MIME_TYPES, List.find?, Bind.bind, Except.bind, e1, e2]

theorem encode_image_png_and_unsupported_witness :
    encode_image "badge.png" [1, 2, 3] = .ok "data:image/png;base64,AQID"
    ∧ encode_image "img.gif" [1] = .error (.keyError "gif") := by
  constructor
  · exact ((encode_image_png_and_unsupported "badge.png" [1, 2, 3]).1 rfl).trans rfl
  · exact ((encode_image_png_and_unsupported "img.gif" [1]).2 (by decide) (by decide)).trans rfl

theorem needsRefresh_iff (st : ClientState) (now : Int) :
    needsRefresh st now = true ↔ ∃ t, st.token_expires_at = some t ∧ t < now := by
  unfold needsRefresh
  cases st.token_expires_at <;> simp

theorem buildTokenPayload_snd_eq (st : ClientState) (u p : PyObj) :
    (buildTokenPayload st u p).2
      = if u.truthy && p.truthy then st
        else if st.refresh_token.truthy then { st with refresh_token := .none }
        else st := by
  unfold buildTokenPayload
  by_cases h1 : u.truthy && p.truthy <;> by_cases h2 : st.refresh_token.truthy <;>
    simp [h1, h2]

theorem buildTokenPayload_base_url (st : ClientState) (u p : PyObj) :
    (buildTokenPayload st u p).2.base_url = st.base_url := by
  rw [buildTokenPayload_snd_eq]
  by_cases h1 : u.truthy && p.truthy <;> by_cases h2 : st.refresh_token.truthy <;>
    simp [h1, h2]

theorem buildTokenPayload_header (st : ClientState) (u p : PyObj) :
    (buildTokenPayload st u p).2.header = st.header := by
  rw [buildTokenPayload_snd_eq]
  by_cases h1 : u.truthy && p.truthy <;> by_cases h2 : st.refresh_token.truthy <;>
    simp [h1, h2]

theorem buildTokenPayload_expires (st : ClientState) (u p : PyObj) :
    (buildTokenPayload st u p).2.token_expires_at = st.token_expires_at := by
  rw [buildTokenPayload_snd_eq]
  by_cases h1 : u.truthy && p.truthy <;> by_cases h2 : st.refresh_token.truthy <;>
    simp [h1, h2]

theorem applyTokenResponse_base_url (st1 : ClientState) (now : Int) (reply : HttpReply) :
    (applyTokenResponse st1 now reply).2.base_url = st1.base_url := by
  unfold applyTokenResponse
  repeat' split
  all_goals rfl

theorem applyTokenResponse_error_header (st1 : ClientState) (now : Int)
    (reply : HttpReply) :
    exOk (applyTokenResponse st1 now reply).1 = false →
    (applyTokenResponse st1 now reply).2.header = st1.header := by
  unfold applyTokenResponse
  repeat' split
  all_goals simp [exOk]

theorem applyTokenResponse_of_getJson_error (st1 : ClientState) (now : Int)
    (reply : HttpReply) (e : Err) (h : getJson reply = .error e) :
    applyTokenResponse st1 now reply = (.error e, st1) := by
  unfold applyTokenResponse
  rw [h]

theorem getAuthToken_trace (st : ClientState) (now : Int) (r : HttpReply)
    (u p : PyObj) :
    (getAuthToken st now r u p).2.2
      = [{ kind := .tokenPost, url := st.base_url ++ "/o/token", method := "POST",
           headers := [], params := .none,
           body := .dict (buildTokenPayload st u p).1 }] := rfl

theorem getAuthToken_base_url (st : ClientState) (now : Int) (r : HttpReply)
    (u p : PyObj) :
    (getAuthToken st now r u p).2.1.base_url = st.base_url := by
  show (applyTokenResponse (buildTokenPayload st u p).2 now r).2.base_url = st.base_url
  rw [applyTokenResponse_base_url, buildTokenPayload_base_url]

theorem hasAuthKey_eraseAuth (l : List (String × String)) :
    hasAuthKey (eraseAuth l) = false := by
  rw [Bool.eq_false_iff]
  intro hcon
  simp only [hasAuthKey, eraseAuth, List.any_eq_true, List.mem_filter] at hcon
  obtain ⟨x, ⟨_, hkeep⟩, hkey⟩ := hcon
  rw [bne, hkey] at hkeep
  simp at hkeep

theorem callApi_trace_kinds (st : ClientState) (w : World) (reply : HttpReply)
    (ep m : String) (params data : PyObj) (auth : Bool) :
    ((callApi st w reply ep m params data auth).2.2).map (fun q => q.kind)
    = (if auth && needsRefresh st w.now
       then (if exOk (applyTokenResponse
               (buildTokenPayload st w.envUsername w.envPassword).2
               w.now w.tokenReply).1
             then [ReqKind.tokenPost, ReqKind.sessionRequest]
             else [ReqKind.tokenPost])
       else [ReqKind.sessionRequest]) := by
  by_cases hc : (auth && needsRefresh st w.now) = true
  · cases ho : (applyTokenResponse
        (buildTokenPayload st w.envUsername w.envPassword).2
        w.now w.tokenReply).1 with
    | error e =>
      simp [callApi, hc, getAuthToken, ho, exOk]
    | ok u =>
      cases hj : getJson reply <;>
        simp [callApi, hc, getAuthToken, ho, hj, exOk]
  · rw [Bool.not_eq_true] at hc
    cases hj : getJson reply <;> simp [callApi, hc, hj]

/-- C3: in `_call_api`, a token refresh exchange (a POST issued by
`_get_auth_token`) happens if and only if the call is authenticated and
`token_expires_at` is non-null and strictly earlier than the current
time (first conjunct spells the `needsRefresh` test out); the trace
contains exactly one such exchange when triggered and none otherwise,
and the exchange precedes the main session request. -/
theorem call_api_refresh_policy (st : ClientState) (w : World) (reply : HttpReply)
    (ep m : String) (params data : PyObj) (auth : Bool) :
    (needsRefresh st w.now = true ↔ ∃ t, st.token_expires_at = some t ∧ t < w.now)
    ∧ (callApi st w reply ep m params data auth).2.2.countP
        (fun q => q.kind == ReqKind.tokenPost)
      = (if auth && needsRefresh st w.now then 1 else 0)
    ∧ ((auth && needsRefresh st w.now) = true →
        ∃ q rest, (callApi st w reply ep m params data auth).2.2 = q :: rest
          ∧ q.kind = ReqKind.tokenPost
          ∧ ∀ x ∈ rest, x.kind = ReqKind.sessionRequest) := by
  refine ⟨needsRefresh_iff st w.now, ?_, ?_⟩
  · have hk := callApi_trace_kinds st w reply ep m params data auth
    have hcp : (callApi st w reply ep m params data auth).2.2.countP
        (fun q => q.kind == ReqKind.tokenPost)
        = (((callApi st w reply ep m params data auth).2.2).map
            (fun q => q.kind)).countP (fun k => k == ReqKind.tokenPost) := by
      rw [List.countP_map]
      rfl
    rw [hcp, hk]
    by_cases hc : (auth && needsRefresh st w.now) = true
    · by_cases hex : exOk (applyTokenResponse
          (buildTokenPayload st w.envUsername w.envPassword).2
          w.now w.tokenReply).1 = true <;>
        simp [hc, hex, List.countP_cons]
    · rw [Bool.not_eq_true] at hc
      simp [hc, List.countP_cons]
  · intro hc
    have hk := callApi_trace_kinds st w reply ep m params data auth
    rw [if_pos hc] at hk
    rcases htr : (callApi st w reply ep m params data auth).2.2 with _ | ⟨q, rest⟩
    · rw [htr] at hk
      by_cases hex : exOk (applyTokenResponse
          (buildTokenPayload st w.envUsername w.envPassword).2
          w.now w.tokenReply).1 = true <;> simp [hex] at hk
    · rw [htr] at hk
      by_cases hex : exOk (applyTokenResponse
          (buildTokenPayload st w.envUsername w.envPassword).2
          w.now w.tokenReply).1 = true <;> simp [hex] at hk
      · refine ⟨q, rest, rfl, hk.1, ?_⟩
        intro x hx
        have hmem : x.kind ∈ rest.map (fun q => q.kind) :=
          List.mem_map_of_mem _ hx
        rw [hk.2] at hmem
        simpa using hmem
      · refine ⟨q, rest, rfl, hk.1, ?_⟩
        intro x hx
        have hmem : x.kind ∈ rest.map (fun q => q.kind) :=
          List.mem_map_of_mem _ hx
        rw [hk.2] at hmem
        simp at hmem

theorem call_api_refresh_policy_witness :
    ((callApi { stBase with token_expires_at := some 10 }
        { wBase with now := 20, tokenReply := tokReply } (okEnvelope [])
        "/v2/issuers" "GET" .none .none true).2.2.countP
      (fun q => q.kind == ReqKind.tokenPost)) = 1
    ∧ ∃ q rest, (callApi { stBase with token_expires_at := some 10 }
        { wBase with now := 20, tokenReply := tokReply } (okEnvelope [])
        "/v2/issuers" "GET" .none .none true).2.2 = q :: rest
        ∧ q.kind = ReqKind.tokenPost
        ∧ ∀ x ∈ rest, x.kind = ReqKind.sessionRequest := by
  have h := call_api_refresh_policy { stBase with token_expires_at := some 10 }
    { wBase with now := 20, tokenReply := tokReply } (okEnvelope [])
    "/v2/issuers" "GET" .none .none true
  exact ⟨h.2.1.trans rfl, h.2.2 rfl⟩

/-- C9: `revoke_assertions` issues exactly one session request: a POST to
the revoke endpoint whose payload holds, in input order, one
`{entityId, revocationReason}` item per id (stated for every call whose
optional pre-refresh does not itself fail, since a failed refresh aborts
before any session request is sent). -/
theorem revoke_assertions_single_post (st : ClientState) (w : World)
    (reply : HttpReply) (ids : List String) (reason : String)
    (h : needsRefresh st w.now = true →
      exOk (getAuthToken st w.now w.tokenReply w.envUsername w.envPassword).1 = true) :
    ((revoke_assertions st w reply ids reason).2.2.filter
        (fun r => r.kind == ReqKind.sessionRequest)).length = 1
    ∧ ∀ q ∈ (revoke_assertions st w reply ids reason).2.2.filter
        (fun r => r.kind == ReqKind.sessionRequest),
        q.url = st.base_url ++ "/v2/assertions/revoke"
        ∧ q.method = "POST"
        ∧ q.body = .list (ids.map (fun eid =>
            PyObj.dict [("entityId", .str eid), ("revocationReason", .str reason)])) := by
  unfold revoke_assertions
  by_cases hc : needsRefresh st w.now = true
  · have hok := h hc
    cases ho : (applyTokenResponse
        (buildTokenPayload st w.envUsername w.envPassword).2
        w.now w.tokenReply).1 with
    | error e =>
      rw [show (getAuthToken st w.now w.tokenReply w.envUsername w.envPassword).1
          = (applyTokenResponse (buildTokenPayload st w.envUsername w.envPassword).2
              w.now w.tokenReply).1 from rfl, ho] at hok
      simp [exOk] at hok
    | ok u =>
      cases hj : getJson reply <;>
        simp [callApi, hc, getAuthToken, ho, hj, exOk, List.filter,
          applyTokenResponse_base_url, buildTokenPayload_base_url]
  · rw [Bool.not_eq_true] at hc
    cases hj : getJson reply <;>
      simp [callApi, hc, hj, List.filter]

theorem revoke_assertions_single_post_witness :
    ((revoke_assertions stBase wBase (okEnvelope []) ["a", "b"] "R").2.2.filter
        (fun r => r.kind == ReqKind.sessionRequest)).length = 1
    ∧ ∀ q ∈ (revoke_assertions stBase wBase (okEnvelope []) ["a", "b"] "R").2.2.filter
        (fun r => r.kind == ReqKind.sessionRequest),
        q.url = "http://b/v2/assertions/revoke"
        ∧ q.method = "POST"
        ∧ q.body = .list [.dict [("entityId", .str "a"), ("revocationReason", .str "R")],
                          .dict [("entityId", .str "b"), ("revocationReason", .str "R")]] := by
  have h := revoke_assertions_single_post stBase wBase (okEnvelope []) ["a", "b"] "R"
    (fun hc => nomatch hc)
  exact h

theorem callApi_norefresh_eq (st : ClientState) (w : World) (reply : HttpReply)
    (ep m : String) (params data : PyObj) (auth : Bool)
    (hc : (auth && needsRefresh st w.now) = false) :
    callApi st w reply ep m params data auth
    = (let st2 := if !auth && hasAuthKey st.header
                  then { st with header := eraseAuth st.header } else st
       let req : Request := { kind := .sessionRequest, url := st.base_url ++ ep,
                              method := m, headers := st2.header,
                              params := params, body := data }
       match getJson reply with
       | .error e => (.error e, st2, [req])
       | .ok r => (.ok r, st2, [req])) := by
  cases hj : getJson reply <;> simp [callApi, hc, hj]

/-- C5: a `_call_api` call with `auth = false` removes the Authorization
key from the client's stored header dict in place (the single session
request of the call is sent with exactly that stored, stripped header),
and any subsequent call that does not trigger a token refresh — which is
what rewrites the header — both keeps the stored header free of
Authorization and sends its request without an Authorization header. -/
theorem call_api_noauth_strips_stored_header (st : ClientState) (w : World)
    (reply : HttpReply) (ep m : String) (params data : PyObj) :
    hasAuthKey (callApi st w reply ep m params data false).2.1.header = false
    ∧ (∃ q, (callApi st w reply ep m params data false).2.2 = [q]
        ∧ q.headers = (callApi st w reply ep m params data false).2.1.header)
    ∧ (∀ (st2 : ClientState) (w2 : World) (reply2 : HttpReply) (ep2 m2 : String)
        (params2 data2 : PyObj) (auth2 : Bool),
        hasAuthKey st2.header = false →
        (auth2 && needsRefresh st2 w2.now) = false →
        hasAuthKey (callApi st2 w2 reply2 ep2 m2 params2 data2 auth2).2.1.header = false
        ∧ ∀ q ∈ (callApi st2 w2 reply2 ep2 m2 params2 data2 auth2).2.2,
            hasAuthKey q.headers = false) := by
  have hmain := callApi_norefresh_eq st w reply ep m params data false (by simp)
  refine ⟨?_, ?_, ?_⟩
  · rw [hmain]
    by_cases hH : hasAuthKey st.header = true <;> cases hj : getJson reply <;>
      simp [hH, hj, hasAuthKey_eraseAuth]
  · rw [hmain]
    by_cases hH : hasAuthKey st.header = true <;> cases hj : getJson reply <;>
      simp [hH, hj]
  · intro st2 w2 reply2 ep2 m2 params2 data2 auth2 hA hc
    have h2 := callApi_norefresh_eq st2 w2 reply2 ep2 m2 params2 data2 auth2 hc
    rw [h2]
    have hcond : (!auth2 && hasAuthKey st2.header) = false := by
      rw [hA]
      simp
    cases hj : getJson reply2 <;> simp [hj, hcond, hA]

theorem call_api_noauth_strips_stored_header_witness :
    hasAuthKey (callApi stBase wBase (okEnvelope []) "/v1/user/profile" "POST"
      .none .none false).2.1.header = false
    ∧ (hasAuthKey (callApi { stBase with header := [] } wBase (okEnvelope [])
        "/v2/issuers" "GET" .none .none true).2.1.header = false
       ∧ ∀ q ∈ (callApi { stBase with header := [] } wBase (okEnvelope [])
           "/v2/issuers" "GET" .none .none true).2.2,
           hasAuthKey q.headers = false) := by
  have h := call_api_noauth_strips_stored_header stBase wBase (okEnvelope [])
    "/v1/user/profile" "POST" .none .none
  exact ⟨h.1, h.2.2 { stBase with header := [] } wBase (okEnvelope [])
    "/v2/issuers" "GET" .none .none true rfl rfl⟩

/-- C1 counterexample: a refresh-token-grant exchange against an
error-returning token endpoint fails, yet the resulting session's stored
refresh token is None — `_get_auth_token` clears it before posting the
request — so the prior session state is not left as it was. -/
theorem failed_refresh_grant_discards_refresh_token :
    exOk (getAuthToken stBase 5 badTokenReply .none .none).1 = false
    ∧ stBase.refresh_token = PyObj.str "rt"
    ∧ (getAuthToken stBase 5 badTokenReply .none .none).2.1.refresh_token
      = PyObj.none :=
  ⟨rfl, rfl, rfl⟩

/-- C1 (amended): on any failed exchange the bearer header is left
unchanged; and when the failure is the token endpoint's reply being
rejected by `_get_json`, `token_expires_at` is also unchanged while the
stored refresh token is unchanged for a password-grant attempt but
cleared to None when the refresh-token grant was attempted (it is
discarded before the request is posted). -/
theorem token_exchange_failure_state (st : ClientState) (now : Int)
    (reply : HttpReply) (u p : PyObj) :
    (∀ e, (getAuthToken st now reply u p).1 = .error e →
      (getAuthToken st now reply u p).2.1.header = st.header)
    ∧ ((∃ e, getJson reply = .error e) →
      (getAuthToken st now reply u p).2.1.token_expires_at = st.token_expires_at
      ∧ (getAuthToken st now reply u p).2.1.refresh_token
        = (if u.truthy && p.truthy then st.refresh_token
           else if st.refresh_token.truthy then PyObj.none
           else st.refresh_token)) := by
  constructor
  · intro e he
    have hx : exOk (applyTokenResponse (buildTokenPayload st u p).2 now reply).1
        = false := by
      have hsame : (getAuthToken st now reply u p).1
          = (applyTokenResponse (buildTokenPayload st u p).2 now reply).1 := rfl
      rw [hsame] at he
      rw [he]
      rfl
    have hh := applyTokenResponse_error_header (buildTokenPayload st u p).2 now reply hx
    show (applyTokenResponse (buildTokenPayload st u p).2 now reply).2.header = st.header
    rw [hh, buildTokenPayload_header]
  · rintro ⟨e, hj⟩
    have happ := applyTokenResponse_of_getJson_error (buildTokenPayload st u p).2
      now reply e hj
    constructor
    · show (applyTokenResponse (buildTokenPayload st u p).2 now reply).2.token_expires_at
        = st.token_expires_at
      rw [happ]
      exact buildTokenPayload_expires st u p
    · show (applyTokenResponse (buildTokenPayload st u p).2 now reply).2.refresh_token = _
      rw [happ]
      rw [buildTokenPayload_snd_eq]
      by_cases h1 : u.truthy && p.truthy <;>
        by_cases h2 : st.refresh_token.truthy <;> simp [h1, h2]

theorem token_exchange_failure_state_witness :
    (getAuthToken stBase 5 badTokenReply .none .none).2.1.header = stBase.header
    ∧ (getAuthToken stBase 5 badTokenReply .none .none).2.1.token_expires_at
      = stBase.token_expires_at
    ∧ (getAuthToken stBase 5 badTokenReply .none .none).2.1.refresh_token
      = PyObj.none := by
  have h := token_exchange_failure_state stBase 5 badTokenReply .none .none
  have h2 := h.2 ⟨.apiError "invalid_grant", rfl⟩
  exact ⟨h.1 (.apiError "invalid_grant") rfl, h2.1, h2.2.trans rfl⟩

/-- C4: if some item of the input list carries an `entityType` string
absent from the `MODELS` mapping, `_deserialize` fails (the mapping
lookup raises KeyError on the unknown tag, which realises the spec's
`UnknownTypeError`); and no successful result ever contains a raw
untyped item — every returned element is a typed entity. -/
theorem deserialize_rejects_unknown_type (l : List PyObj) :
    ((∃ i ∈ l, badDiscriminator i) → exOk (deserialize l) = false)
    ∧ (∀ out, deserialize l = .ok out → ∀ x ∈ out, ∃ e, x = DeserItem.entity e) := by
  induction l with
  | nil =>
    constructor
    · rintro ⟨i, hi, _⟩
      exact absurd hi (List.not_mem_nil i)
    · intro out hout x hx
      simp only [deserialize, Except.ok.injEq] at hout
      rw [← hout] at hx
      exact absurd hx (List.not_mem_nil x)
  | cons i0 rest ih =>
    constructor
    · rintro ⟨i, hi, hbad⟩
      rcases List.mem_cons.mp hi with hhd | htl
      · subst hhd
        obtain ⟨s, hets, hfind⟩ := hbad
        simp [deserialize, Bind.bind, Except.bind, hets, modelsIndex, hfind, exOk]
      · have hrest_bad := ih.1 ⟨i, htl, hbad⟩
        cases het : pyIndex i0 "entityType" with
        | error e => simp [deserialize, Bind.bind, Except.bind, het, exOk]
        | ok et =>
          cases hmk : modelsIndex et with
          | error e => simp [deserialize, Bind.bind, Except.bind, het, hmk, exOk]
          | ok k =>
            cases hsd : Base.set_data (mkModel k) i0 with
            | error e =>
              simp [deserialize, Bind.bind, Except.bind, Pure.pure, Except.pure,
                het, hmk, hsd, classTruthy, exOk]
            | ok e1 =>
              cases hrest : deserialize rest with
              | error e =>
                simp [deserialize, Bind.bind, Except.bind, Pure.pure, Except.pure,
                  het, hmk, hsd, hrest, classTruthy, exOk]
              | ok out =>
                rw [hrest] at hrest_bad
                simp [exOk] at hrest_bad
    · intro out hout x hx
      cases het : pyIndex i0 "entityType" with
      | error e =>
        simp [deserialize, Bind.bind, Except.bind, het] at hout
      | ok et =>
        cases hmk : modelsIndex et with
        | error e =>
          simp [deserialize, Bind.bind, Except.bind, het, hmk] at hout
        | ok k =>
          cases hsd : Base.set_data (mkModel k) i0 with
          | error e =>
            simp [deserialize, Bind.bind, Except.bind, Pure.pure, Except.pure,
              het, hmk, hsd, classTruthy] at hout
          | ok e1 =>
            cases hrest : deserialize rest with
            | error e =>
              simp [deserialize, Bind.bind, Except.bind, Pure.pure, Except.pure,
                het, hmk, hsd, hrest, classTruthy] at hout
            | ok tl =>
              simp [deserialize, Bind.bind, Except.bind, Pure.pure, Except.pure,
                het, hmk, hsd, hrest, classTruthy] at hout
              rw [← hout] at hx
              rcases List.mem_cons.mp hx with h1 | h2
              · exact ⟨e1, h1⟩
              · exact ih.2 tl hrest x h2

theorem deserialize_rejects_unknown_type_witness :
    exOk (deserialize [.dict [("entityType", .str "Collection")]]) = false
    ∧ ∀ x ∈ [DeserItem.entity (Entity.mk "/v2/issuers" (.str "X")
          (.dict [("entityType", .str "Issuer"), ("entityId", .str "X")]))],
        ∃ e, x = DeserItem.entity e := by
  constructor
  · exact (deserialize_rejects_unknown_type _).1
      ⟨_, List.mem_singleton.mpr rfl, "Collection", rfl, rfl⟩
  · exact (deserialize_rejects_unknown_type
      [.dict [("entityType", .str "Issuer"), ("entityId", .str "X")]]).2 _ rfl

theorem save_badge_name_registers (st : ClientState) (b : Entity) (st' : ClientState)
    (nm iss : PyObj)
    (hnm : pyGet b.data "name" = .ok nm)
    (hiss : pyGet b.data "issuer" = .ok iss)
    (htr : (b.entityId.truthy || nm.truthy || iss.truthy) = true)
    (hsv : save_badge_name st b = .ok st') :
    ∃ inner, alGet st'.badge_names iss = some inner
      ∧ alGet inner nm = some b.entityId := by
  unfold save_badge_name at hsv
  simp only [Bind.bind, Except.bind, hnm, hiss, htr, Bool.not_true, Bool.false_eq_true,
    if_false, Pure.pure, Except.pure, Except.ok.injEq] at hsv
  refine ⟨alSet (match alGet st.badge_names iss with
      | some l => if l.isEmpty then [] else l
      | Option.none => []) nm b.entityId, ?_, ?_⟩
  · rw [← hsv]
    exact alGet_alSet_self _ _ _
  · exact alGet_alSet_self _ _ _

theorem get_eid_truthy_of_indexMapsTo (st : ClientState) (name issuer_eid : PyObj)
    (hub : st.unique_badge_names = true)
    (htruthy : (name.truthy || issuer_eid.truthy) = true)
    (hidx : indexMapsTo st issuer_eid name = true) :
    (get_eid_from_badge_name st name issuer_eid).truthy = true := by
  unfold indexMapsTo at hidx
  split at hidx
  next inner hga =>
    split at hidx
    next v hgn =>
      have hne : inner.isEmpty = false := by
        rcases inner with _ | ⟨p, r⟩
        · simp [alGet] at hgn
        · rfl
      simp [get_eid_from_badge_name, htruthy, hub, hga, hne, hgn, hidx]
    next hgn => simp at hidx
  next hga => simp at hidx

/-- C6 (amended): with the name-index feature enabled and well-formed
criteria, a `BadgeClass.create` whose given name or issuer id is truthy
and whose (issuer_id, name) pair the index maps to a truthy badge id
fails with the duplicate-name error before any network call (when the
name and the issuer id are both falsy — e.g. both empty strings — the
guard in `get_eid_from_badge_name` skips the lookup and the check is
bypassed, see the counterexample); and on every successful creation
whose server-returned badge data yields a truthy entityId, name or
issuer, the (issuer, name) -> entityId entry taken from that returned
data is inserted into the index. -/
theorem badge_create_duplicate_and_register (e : Entity) (st : ClientState)
    (w : World) (reply : HttpReply)
    (name image description issuer_eid ct cu al tg ex : PyObj) :
    (st.unique_badge_names = true →
      (name.truthy || issuer_eid.truthy) = true →
      (ct.truthy || cu.truthy) = true →
      indexMapsTo st issuer_eid name = true →
      ∃ m, BadgeClass.create e st w reply name image description issuer_eid
            ct cu al tg ex
        = (.error (.badgrClientError m), st, []))
    ∧ (∀ e1 st' tr, st.unique_badge_names = true →
        BadgeClass.create e st w reply name image description issuer_eid
          ct cu al tg ex = (.ok e1, st', tr) →
        ∀ nm iss, pyGet e1.data "name" = .ok nm → pyGet e1.data "issuer" = .ok iss →
        (e1.entityId.truthy || nm.truthy || iss.truthy) = true →
        ∃ inner, alGet st'.badge_names iss = some inner
          ∧ alGet inner nm = some e1.entityId) := by
  constructor
  · intro hub htruthy hcrit hidx
    have hv := get_eid_truthy_of_indexMapsTo st name issuer_eid hub htruthy hidx
    refine ⟨dupNameMsg name (get_eid_from_badge_name st name issuer_eid), ?_⟩
    simp [BadgeClass.create, hcrit, hub, hv]
  · intro e1 st' tr hub hcr nm iss hnm hiss htr
    unfold BadgeClass.create at hcr
    repeat' split at hcr
    any_goals solve | simp at hcr
    all_goals
      rename_i st2 hsv
    all_goals
      simp only [Prod.mk.injEq, Except.ok.injEq] at hcr
      obtain ⟨he1, hst, htrace⟩ := hcr
      rw [← he1] at hnm hiss htr
      rw [← he1, ← hst]
      exact save_badge_name_registers _ _ _ nm iss hnm hiss htr hsv

/-- C6 counterexample: the index maps the (issuer_id, name) pair
("", "") to the badge id "xyz", yet `create` with that name and issuer
does not fail with the duplicate-name error — the falsy-pair guard in
`get_eid_from_badge_name` skips the lookup, so the call succeeds and the
network request is issued. -/
theorem badge_create_duplicate_check_counterexample :
    indexMapsTo stDup (.str "") (.str "") = true
    ∧ exOk (BadgeClass.create (Entity.mk "/v2/badgeclasses" .none .none) stDup wBase
        dupReply (.str "") (.str "img") (.str "desc") (.str "") (.str "crit")
        .none .none .none .none).1 = true
    ∧ (BadgeClass.create (Entity.mk "/v2/badgeclasses" .none .none) stDup wBase
        dupReply (.str "") (.str "img") (.str "desc") (.str "") (.str "crit")
        .none .none .none .none).2.2.length = 1 := by
  refine ⟨?_, ?_, ?_⟩
  · simp [indexMapsTo, stDup, stBase, alGet, PyObj.beq, PyObj.truthy]
  · simp [BadgeClass.create, createPayload, get_eid_from_badge_name, stDup, stBase,
      alGet, alSet, PyObj.beq, PyObj.truthy, callApi, needsRefresh, getJson, pyContains,
      pyIndex, pyIndex0, Base.set_data, save_badge_name, pyGet, exOk, okEnvelope,
      dupReply, wBase, hasAuthKey, Bind.bind, Except.bind, Pure.pure, Except.pure]
  · simp [BadgeClass.create, createPayload, get_eid_from_badge_name, stDup, stBase,
      alGet, alSet, PyObj.beq, PyObj.truthy, callApi, needsRefresh, getJson, pyContains,
      pyIndex, pyIndex0, Base.set_data, save_badge_name, pyGet, exOk, okEnvelope,
      dupReply, wBase, hasAuthKey, Bind.bind, Except.bind, Pure.pure, Except.pure]

theorem badge_create_duplicate_and_register_witness :
    (∃ m, BadgeClass.create (Entity.mk "/v2/badgeclasses" .none .none) stDup2 wBase
        newBadgeReply (.str "n") (.str "img") (.str "desc") (.str "i") (.str "crit")
        .none .none .none .none
      = (.error (.badgrClientError m), stDup2, []))
    ∧ ∃ inner,
        alGet { stBase with
                unique_badge_names := true
                badge_names := [(.str "i", [(.str "n", .str "new1")])] }.badge_names
          (.str "i") = some inner
        ∧ alGet inner (.str "n") = some (PyObj.str "new1") := by
  constructor
  · exact (badge_create_duplicate_and_register (Entity.mk "/v2/badgeclasses" .none .none)
      stDup2 wBase newBadgeReply (.str "n") (.str "img") (.str "desc") (.str "i")
      (.str "crit") .none .none .none .none).1 rfl rfl rfl
      (by simp [indexMapsTo, stDup2, stBase, alGet, PyObj.beq, PyObj.truthy])
  · exact (badge_create_duplicate_and_register (Entity.mk "/v2/badgeclasses" .none .none)
      stIdx wBase newBadgeReply (.str "n") (.str "img") (.str "desc") (.str "i")
      (.str "crit") .none .none .none .none).2
      (Entity.mk "/v2/badgeclasses" (.str "new1")
        (.dict [("entityId", .str "new1"), ("name", .str "n"), ("issuer", .str "i")]))
      { stBase with
        unique_badge_names := true
        badge_names := [(.str "i", [(.str "n", .str "new1")])] }
      [{ kind := .sessionRequest, url := "http://b/v2/badgeclasses", method := "POST",
         headers := [("Authorization", "Bearer tok")], params := .none,
         body := .dict [("name", .str "n"), ("image", .str "img"), ("issuer", .str "i"),
           ("description", .str "desc"), ("criteria_text", .str "crit"),
           ("criteria_url", .none), ("alignments", .list []), ("tags", .list []),
           ("expires", .none)] }]
      rfl rfl (.str "n") (.str "i") rfl rfl rfl
